import Mathlib

/-!
Shallow embedding in Lean 4 of the `CoreAuth` authentication client from
`packages/core/src/core.ts` of the omx-sdk repository, together with a
verification of the frozen specification claims about it.

Modelling conventions:
* `Date.now()` readings are explicit `Int` parameters (`now`, `t`, ...);
  every function that calls `Date.now()` in the source takes its own reading.
* Network interaction is scripted: a `ScriptEnv` maps the index of each
  issuer exchange (resp. each business request) to its outcome, so a run of
  `makeAuthenticatedRequest` is a pure computation over the script.
* JavaScript exceptions are modelled with `Except AuthErr`; the subclass
  hierarchy of `errors.ts` (every custom error extends
  `AuthenticationError`) is reflected by the predicate `isAuthenticationErr`.
  Raw JavaScript errors that are not instances of `AuthenticationError`
  (e.g. a rejected `fetch`) are the `jsError` constructor.
* Error `message` strings are kept only where a claim inspects them
  (`configuration`, `network`); for `authentication` the `code` and
  `statusCode` fields are kept, which is what the control flow reads.
-/

/-- Errors of `errors.ts`.  All constructors except `jsError` model
subclasses of `AuthenticationError`. -/
inductive AuthErr where
  /-- `AuthenticationError(code, message, statusCode, details)` (message not tracked). -/
  | authentication (code : String) (statusCode : Option Nat)
  /-- `TokenExpiredError` (code `TOKEN_EXPIRED`, statusCode 401). -/
  | tokenExpired
  /-- `InvalidCredentialsError` (code `INVALID_CREDENTIALS`, statusCode 401). -/
  | invalidCredentials
  /-- `NetworkError(message, details)` (code `NETWORK_ERROR`). -/
  | network (msg : String)
  /-- `RateLimitError(message, retryAfter)`: `details.retryAfter` in milliseconds. -/
  | rateLimit (retryAfterMs : Nat)
  /-- `ConfigurationError(message)` (code `CONFIGURATION_ERROR`). -/
  | configuration (msg : String)
  /-- A raw JavaScript error that is not an `instanceof AuthenticationError`. -/
  | jsError (msg : String)
deriving DecidableEq, Repr

/-- `e instanceof AuthenticationError`: true for every custom error class of
`errors.ts`, false for raw JavaScript errors. -/
def isAuthenticationErr : AuthErr → Bool
  | .jsError _ => false
  | _ => true

/-- The non-retryable classifications of `makeAuthenticatedRequest`
(`core.ts` lines 272-279): `InvalidCredentialsError`, `ConfigurationError`,
or an `AuthenticationError` whose `code` is `RPC_NOT_FOUND`. -/
def nonRetryableBreak : AuthErr → Bool
  | .invalidCredentials => true
  | .configuration _ => true
  | .authentication code _ => code = "RPC_NOT_FOUND"
  | _ => false

/-- The retryable classifications named by the specification:
`NetworkError`, `TokenExpiredError`, `RateLimitError`. -/
def retryableErr : AuthErr → Bool
  | .network _ => true
  | .tokenExpired => true
  | .rateLimit _ => true
  | _ => false

/-- A JavaScript value in a position where the code checks
`!v || typeof v !== 'string'`: either absent (`undefined`/`null`), present
but not a string, or a string. -/
inductive JSVal where
  | undef
  | nonString
  | strVal (s : String)
deriving DecidableEq, Repr

/-- The raw `AuthConfig` object passed to the constructor
(`types.ts`): optional numeric fields default in the constructor. -/
structure RawConfig where
  clientId : JSVal
  secretKey : JSVal
  tokenCacheTtl : Option Int
  maxRetries : Option Nat
  retryDelay : Option Nat
deriving DecidableEq, Repr

/-- The configuration held by a constructed `CoreAuth` instance, after the
defaults `tokenCacheTtl = 55*60*1000`, `maxRetries = 3`, `retryDelay = 1000`
have been applied. -/
structure AuthConfig where
  clientId : String
  secretKey : String
  tokenCacheTtl : Int
  maxRetries : Nat
  retryDelay : Nat
deriving DecidableEq, Repr

/-- `new CoreAuth(config)` (`core.ts` lines 29-52): `validateConfig` throws
`ConfigurationError` when `clientId` or `secretKey` is falsy or not a
string (in that order); otherwise the defaults are merged. -/
def coreAuthNew (c : RawConfig) : Except AuthErr AuthConfig :=
  match c.clientId with
  | .strVal a =>
    if a = "" then .error (.configuration "clientId is required and must be a string")
    else
      match c.secretKey with
      | .strVal b =>
        if b = "" then .error (.configuration "secretKey is required and must be a string")
        else .ok { clientId := a, secretKey := b,
                   tokenCacheTtl := c.tokenCacheTtl.getD (55 * 60 * 1000),
                   maxRetries := c.maxRetries.getD 3,
                   retryDelay := c.retryDelay.getD 1000 }
      | _ => .error (.configuration "secretKey is required and must be a string")
  | _ => .error (.configuration "clientId is required and must be a string")

/-- The claim C8's predicate on a credential field: "missing or not a
string".  (An empty string is neither.) -/
abbrev missingOrNotString (v : JSVal) : Prop := v = .undef ∨ v = .nonString

/-- `JWTToken` (`types.ts`). -/
structure JWTToken where
  access_token : String
  token_type : String
  expires_in : Nat
  expires_at : Int
deriving DecidableEq, Repr

/-- `createJWTToken` (`core.ts` lines 158-172): `expires_at = now + expires_in * 1000`
with `now` the `Date.now()` reading made inside the function. -/
def createJWTToken (now : Int) (access_token token_type : String) (expires_in : Nat) : JWTToken :=
  { access_token := access_token, token_type := token_type, expires_in := expires_in,
    expires_at := now + (expires_in : Int) * 1000 }

/-- `CachedToken` (`types.ts`). -/
structure CachedToken where
  token : JWTToken
  cachedAt : Int
  expiresAt : Int
deriving DecidableEq, Repr

/-- `cacheToken` (`core.ts` lines 177-189): the entry expires at
`now + min(tokenCacheTtl, expires_in * 1000)` with `now` the `Date.now()`
reading made inside `cacheToken` (a later reading than the one inside
`createJWTToken`). -/
def cacheToken (cfg : AuthConfig) (now : Int) (tok : JWTToken) : CachedToken :=
  { token := tok, cachedAt := now,
    expiresAt := now + min cfg.tokenCacheTtl ((tok.expires_in : Int) * 1000) }

/-- `isTokenValid` (`core.ts` lines 84-93): a cached token is valid while
`now < expiresAt - 60000` (one-minute buffer); absent token is invalid. -/
def isTokenValid (now : Int) : Option CachedToken → Bool
  | none => false
  | some ct => decide (now < ct.expiresAt - 60000)

/-- The record returned by `getTokenInfo` (`core.ts` lines 401-411). -/
structure TokenInfoView where
  isValid : Bool
  expiresAt : Option Int
  cachedAt : Option Int
deriving DecidableEq, Repr

/-- `getTokenInfo` (`core.ts` lines 401-411).  The source uses
`cachedToken?.expiresAt || null`, so a (theoretical) zero timestamp is also
reported as `null`; that JavaScript truthiness quirk is preserved. -/
def getTokenInfo (now : Int) (c : Option CachedToken) : TokenInfoView :=
  { isValid := isTokenValid now c,
    expiresAt := match c with
      | none => none
      | some ct => if ct.expiresAt = 0 then none else some ct.expiresAt,
    cachedAt := match c with
      | none => none
      | some ct => if ct.cachedAt = 0 then none else some ct.cachedAt }

/-- `this.cachedToken!.token.access_token` (`core.ts` line 66): the source
uses a non-null assertion; the `none` case is unreachable because
`isTokenValid` is false on an absent token. -/
def cachedAccessToken : Option CachedToken → String
  | some ct => ct.token.access_token
  | none => ""

/-- The value of key `k` in a JavaScript object literal written as the
key/value list `l` (later entries overwrite earlier ones). -/
def lookupLastH : List (String × String) → String → Option String
  | [], _ => none
  | p :: rest, k =>
    match lookupLastH rest k with
    | some v => some v
    | none => if p.1 = k then some p.2 else none

/-- The request headers built by `makeAuthenticatedRequest`
(`core.ts` lines 243-248): the object literal
`\x7b 'Content-Type': 'application/json', Authorization: 'Bearer ' + token, ...headers \x7d`.
Because the caller's `headers` are spread last, they take precedence over
both injected entries.  The `Authorization` value uses the literal string
`Bearer` and the bare token returned by `getToken`; the credential's
`token_type` does not reach this site. -/
def requestHeaderValue (token : String) (caller : List (String × String)) (k : String) :
    Option String :=
  match lookupLastH caller k with
  | some v => some v
  | none =>
    if k = "Authorization" then some ("Bearer " ++ token)
    else if k = "Content-Type" then some "application/json" else none

/-- A business-endpoint HTTP response as consumed by `handleResponse`
(`core.ts` lines 317-382).  `retryAfterSec` is the parsed value of the
`Retry-After` header (`none` = header absent, in which case the source
parses the fallback string `'60'`).  `bodyOk` says whether reading the body
(`response.json()` / `response.text()`) succeeds. -/
structure HttpResponse where
  status : Nat
  retryAfterSec : Option Nat
  contentTypeJson : Bool
  body : String
  bodyOk : Bool
deriving DecidableEq, Repr

/-- The payload of a successful `ApiResponse`: either parsed JSON (when the
content type includes `application/json`) or the raw text. -/
inductive RespData where
  | jsonData (s : String)
  | textData (s : String)
deriving DecidableEq, Repr

/-- `ApiResponse` (`types.ts`), without echoing the response headers. -/
structure ApiRespModel where
  success : Bool
  data : Option RespData
  error : Option AuthErr
  status : Nat
deriving DecidableEq, Repr

/-- `handleResponse` (`core.ts` lines 317-382), as a function of the current
cached token and the HTTP response; it returns the new cached token and
either a returned `ApiResponse` or a thrown error.

The body of the source's `try` block throws `TokenExpiredError` on 401
(after clearing the cache), `RateLimitError` on 429 (with
`retryAfter = parseInt(header or '60') * 1000` milliseconds) and
`AuthenticationError` on any other status `>= 400`.  The source's own
`catch` block then converts any `instanceof AuthenticationError` — which
includes all three of those classes — into a *returned*
`\x7b success: false \x7d` response, and wraps anything else in a thrown
`NetworkError`. -/
def handleResponse (cache : Option CachedToken) (r : HttpResponse) :
    Option CachedToken × Except AuthErr ApiRespModel :=
  let cache' := if r.status = 401 then none else cache
  let inner : Except AuthErr ApiRespModel :=
    if r.status = 401 then .error .tokenExpired
    else if r.status = 429 then .error (.rateLimit ((r.retryAfterSec.getD 60) * 1000))
    else if 400 ≤ r.status then
      if r.bodyOk then .error (.authentication ("HTTP_" ++ toString r.status) (some r.status))
      else .error (.jsError "body read failed")
    else
      if r.bodyOk then
        .ok { success := true,
              data := some (if r.contentTypeJson then .jsonData r.body else .textData r.body),
              error := none, status := r.status }
      else .error (.jsError "body read failed")
  match inner with
  | .ok resp => (cache', .ok resp)
  | .error e =>
    if isAuthenticationErr e then
      (cache', .ok { success := false, data := none, error := some e, status := r.status })
    else (cache', .error (.network "Failed to process response"))

/-- Outcome of one issuer exchange (the `fetch` of `fetchNewToken`,
`core.ts` lines 98-153).  `success` carries the token field, the optional
`token_type` and the optional `expires_in` of the JSON body;
`issuerError` carries the (already classified) error produced by
`handleSupabaseError` when the body has an `error` field; `httpError` is a
non-ok HTTP status; `reject` is a rejected `fetch`. -/
inductive IssuerResult where
  | success (token : String) (token_type : Option String) (expires_in : Option Nat)
  | issuerError (e : AuthErr)
  | httpError (status : Nat)
  | reject
deriving DecidableEq, Repr

/-- Outcome of one business-endpoint `fetch` (`core.ts` line 264):
a response, or a rejected promise (whose raw error is not an
`AuthenticationError`). -/
inductive BusinessResult where
  | resp (r : HttpResponse)
  | reject
deriving DecidableEq, Repr

/-- The scripted network: the `n`-th issuer exchange and the `n`-th business
request (0-based, counted separately) have predetermined outcomes. -/
structure ScriptEnv where
  issuer : Nat → IssuerResult
  business : Nat → BusinessResult

/-- Mutable state of a run of `makeAuthenticatedRequest`, plus
instrumentation counters: number of attempts begun, issuer exchanges and
business calls performed, the argument of every `sleep`, and the
`Authorization` header value of every business request sent. -/
structure ReqState where
  cache : Option CachedToken
  issuerCalls : Nat
  businessCalls : Nat
  attempts : Nat
  sleeps : List Nat
  sentAuth : List String
deriving DecidableEq, Repr

/-- The state of a freshly constructed client: no cached token, nothing
performed yet. -/
def initReqState : ReqState :=
  { cache := none, issuerCalls := 0, businessCalls := 0, attempts := 0,
    sleeps := [], sentAuth := [] }

/-- `fetchNewToken` (`core.ts` lines 98-153): performs one issuer exchange;
on a successful body it builds the `JWTToken` (with defaults
`token_type = 'Bearer'`, `expires_in = 3600`), caches it and returns it.
An empty token field is falsy in `data.token || data.access_token` and
yields `NO_TOKEN_RESPONSE`.  A thrown value that is not an
`AuthenticationError` is wrapped in a `NetworkError` by the source's
`catch`; an `AuthenticationError` is re-thrown unchanged. -/
def fetchNewToken (cfg : AuthConfig) (env : ScriptEnv) (now : Int) (s : ReqState) :
    ReqState × Except AuthErr JWTToken :=
  let s1 := { s with issuerCalls := s.issuerCalls + 1 }
  match env.issuer s.issuerCalls with
  | .reject => (s1, .error (.network "Failed to fetch JWT token"))
  | .httpError st => (s1, .error (.authentication ("HTTP_" ++ toString st) (some st)))
  | .issuerError e =>
    if isAuthenticationErr e then (s1, .error e)
    else (s1, .error (.network "Failed to fetch JWT token"))
  | .success tk tt ei =>
    if tk = "" then (s1, .error (.authentication "NO_TOKEN_RESPONSE" none))
    else
      let tok := createJWTToken now tk (tt.getD "Bearer") (ei.getD 3600)
      ({ s1 with cache := some (cacheToken cfg now tok) }, .ok tok)

/-- `getToken` (`core.ts` lines 57-79) as executed sequentially inside one
`makeAuthenticatedRequest` call: at these call sites `refreshPromise` is
always `null` (it is set and cleared within the same `await`), so only the
cache check and the refresh remain.  The in-flight path is modelled
separately by `getTokenArrival` below. -/
def getToken (cfg : AuthConfig) (env : ScriptEnv) (now : Int) (forceRefresh : Bool)
    (s : ReqState) : ReqState × Except AuthErr String :=
  if !forceRefresh && isTokenValid now s.cache then
    (s, .ok (cachedAccessToken s.cache))
  else
    match fetchNewToken cfg env now s with
    | (s1, .ok tok) => (s1, .ok tok.access_token)
    | (s1, .error e) => (s1, .error e)

/-- One iteration of the `try` block of `makeAuthenticatedRequest`
(`core.ts` lines 239-267): get a token (`forceRefresh = attempt > 0`),
build the headers, perform the business `fetch` and hand the response to
`handleResponse`.  A rejected business `fetch` propagates the raw
(non-`AuthenticationError`) error. -/
def attemptOnce (cfg : AuthConfig) (env : ScriptEnv) (now : Int)
    (caller : List (String × String)) (attempt : Nat) (s : ReqState) :
    ReqState × Except AuthErr ApiRespModel :=
  match getToken cfg env now (attempt != 0) s with
  | (s1, .error e) => (s1, .error e)
  | (s1, .ok token) =>
    let s2 := { s1 with
      sentAuth := s1.sentAuth ++ [(requestHeaderValue token caller "Authorization").getD ""] }
    let s3 := { s2 with businessCalls := s2.businessCalls + 1 }
    match env.business s2.businessCalls with
    | .reject => (s3, .error (.jsError "fetch rejected"))
    | .resp r =>
      match handleResponse s3.cache r with
      | (c', res) => ({ s3 with cache := c' }, res)

/-- The retry loop of `makeAuthenticatedRequest` (`core.ts` lines 236-312),
parametrised by the body of one attempt.  `fuel = retries - attempt` (so
`fuel = 0` exactly on the last permitted attempt).  On a returned response
the loop stops; on a thrown error it breaks for the non-retryable
classifications, sleeps `(details.retryAfter or retryDelay) * 2^attempt`
and continues on `RateLimitError`, clears the cache and sleeps
`retryDelay * 2^attempt` on `TokenExpiredError`, sleeps the same on
`NetworkError`, and otherwise continues without sleeping; when attempts are
exhausted it throws the last error. -/
def attemptsLoop (cfg : AuthConfig)
    (att : Nat → ReqState → ReqState × Except AuthErr ApiRespModel) :
    Nat → Nat → ReqState → ReqState × Except AuthErr ApiRespModel
  | fuel, attempt, s =>
    let s0 := { s with attempts := s.attempts + 1 }
    match att attempt s0 with
    | (s1, .ok r) => (s1, .ok r)
    | (s1, .error e) =>
      if nonRetryableBreak e then (s1, .error e)
      else
        match fuel with
        | 0 => (s1, .error e)
        | fuel' + 1 =>
          match e with
          | .rateLimit ra =>
            let d := (if ra != 0 then ra else cfg.retryDelay) * 2 ^ attempt
            attemptsLoop cfg att fuel' (attempt + 1) { s1 with sleeps := s1.sleeps ++ [d] }
          | .tokenExpired =>
            attemptsLoop cfg att fuel' (attempt + 1)
              { s1 with cache := none, sleeps := s1.sleeps ++ [cfg.retryDelay * 2 ^ attempt] }
          | .network _ =>
            attemptsLoop cfg att fuel' (attempt + 1)
              { s1 with sleeps := s1.sleeps ++ [cfg.retryDelay * 2 ^ attempt] }
          | _ => attemptsLoop cfg att fuel' (attempt + 1) s1

/-- `makeAuthenticatedRequest` (`core.ts` lines 224-312) on a client in
state `s0`, with `options.retries` left at its default
`config.maxRetries`. -/
def makeAuthenticatedRequest (cfg : AuthConfig) (env : ScriptEnv) (now : Int)
    (caller : List (String × String)) (s0 : ReqState) :
    ReqState × Except AuthErr ApiRespModel :=
  attemptsLoop cfg (attemptOnce cfg env now caller) cfg.maxRetries 0 s0

/-- The per-failure base delay of the retry loop, as the amended claim C6
states it: a `RateLimitError` with a non-zero (truthy) `retryAfter` hint
uses that hint in milliseconds, and everything else uses the configured
`retryDelay`. -/
def delayForErr (cfg : AuthConfig) : AuthErr → Nat
  | .rateLimit ra => if ra != 0 then ra else cfg.retryDelay
  | _ => cfg.retryDelay

/-- The inter-attempt delay schedule the amended claim C6 predicts for a run
whose attempt `a` fails with `e a`, starting at attempt index `a` with
`fuel` retries remaining: each delay is `delayForErr * 2 ^ attempt`. -/
def delaySchedule (cfg : AuthConfig) (e : Nat → AuthErr) : Nat → Nat → List Nat
  | 0, _ => []
  | fuel + 1, a => delayForErr cfg (e a) * 2 ^ a :: delaySchedule cfg e fuel (a + 1)

/-!
Concurrency model for `getToken` (claim C2).  JavaScript runs the
synchronous prefix of each `getToken()` call atomically: the
`refreshPromise` check (line 59), the cache check (line 65) and — when a
refresh is needed — the body of `fetchNewToken` up to its first `await`
together with the assignment `this.refreshPromise = ...` (line 71) all
execute with no interleaving.  A batch of N concurrent calls is therefore a
sequence of N atomic arrivals against the shared state, after which the
single in-flight exchange resolves and every waiter receives its token.
-/

/-- The shared client state seen by an arriving `getToken()` call:
whether a refresh promise is in flight, whether the cached token is
currently valid, and how many issuer exchanges have been started. -/
structure FlightState where
  inFlight : Bool
  cacheValid : Bool
  exchanges : Nat
deriving DecidableEq, Repr

/-- What an arriving `getToken()` call ends up doing: return the cached
token immediately, or await the (existing or newly started) refresh
promise. -/
inductive CallOutcome where
  | fromCache
  | awaitRefresh
deriving DecidableEq, Repr

/-- The atomic synchronous prefix of one `getToken(forceRefresh)` call
(`core.ts` lines 57-71): join an in-flight refresh if there is one;
otherwise return the cached token when it is valid and not bypassed;
otherwise start a new exchange and set the in-flight flag. -/
def getTokenArrival (forceRefresh : Bool) (s : FlightState) : FlightState × CallOutcome :=
  if s.inFlight then (s, .awaitRefresh)
  else if !forceRefresh && s.cacheValid then (s, .fromCache)
  else ({ s with inFlight := true, exchanges := s.exchanges + 1 }, .awaitRefresh)

/-- `n` concurrent `getToken()` (no `forceRefresh`) calls arriving in
sequence, before the in-flight refresh (if any) resolves. -/
def arriveN : Nat → FlightState → FlightState × List CallOutcome
  | 0, s => (s, [])
  | n + 1, s =>
    let (s1, o) := getTokenArrival false s
    let (s2, os) := arriveN n s1
    (s2, o :: os)

/-- The state of claim C2: no valid credential cached, no refresh in
flight. -/
def flightInit : FlightState := { inFlight := false, cacheValid := false, exchanges := 0 }

/-- How a call's outcome resolves once the single in-flight exchange
resolves with token string `t` (`token.access_token`), the cache holding
`c`: awaiters of the refresh promise all receive `t`. -/
def resolveOutcome (t c : String) : CallOutcome → String
  | .awaitRefresh => t
  | .fromCache => c

/-!  Concrete scenario scripts used by the claims.  -/

/-- A successfully constructed client with the defaults of the source
(`tokenCacheTtl` 55 min, `maxRetries` 3, `retryDelay` 1000 ms). -/
def cfgDefault : AuthConfig :=
  { clientId := "c1", secretKey := "s1", tokenCacheTtl := 55 * 60 * 1000,
    maxRetries := 3, retryDelay := 1000 }

/-- The client of claim C1: `maxRetries 2`, `retryDelay 10`. -/
def cfgC1 : AuthConfig := { cfgDefault with maxRetries := 2, retryDelay := 10 }

/-- HTTP 429 with `Retry-After: 1` (claim C1's first business response). -/
def resp429 : HttpResponse :=
  { status := 429, retryAfterSec := some 1, contentTypeJson := false, body := "", bodyOk := true }

/-- HTTP 200 with JSON body `\x7bok:true\x7d` (claim C1's second business
response). -/
def resp200 : HttpResponse :=
  { status := 200, retryAfterSec := none, contentTypeJson := true,
    body := "\x7b\x22ok\x22:true\x7d", bodyOk := true }

/-- HTTP 401 (claim C4's first business response). -/
def resp401 : HttpResponse :=
  { status := 401, retryAfterSec := none, contentTypeJson := true, body := "", bodyOk := true }

/-- Claim C1's script: the issuer returns `\x7btoken:"T1", expires_in:3600\x7d`
on every exchange; the business endpoint returns 429 on the first request
and 200 thereafter. -/
def envC1 : ScriptEnv :=
  { issuer := fun _ => .success "T1" none (some 3600),
    business := fun n => if n = 0 then .resp resp429 else .resp resp200 }

/-- Claim C4's script: the business endpoint returns 401 on the first
request and 200 thereafter. -/
def envC4 : ScriptEnv :=
  { issuer := fun _ => .success "T1" none (some 3600),
    business := fun n => if n = 0 then .resp resp401 else .resp resp200 }

/-- Claim C7's script: the issuer issues a credential whose `token_type` is
`MAC`; the business endpoint always succeeds. -/
def envC7 : ScriptEnv :=
  { issuer := fun _ => .success "T1" (some "MAC") (some 3600),
    business := fun _ => .resp resp200 }

/-- Claim C6's counterexample configuration: base delay 5000 ms, one
retry. -/
def cfgC6 : AuthConfig := { cfgDefault with maxRetries := 1, retryDelay := 5000 }

/-- Claim C6's counterexample attempt body: every attempt fails with a
`RateLimitError` whose `Retry-After` hint was 1 second (1000 ms). -/
def attC6 : Nat → ReqState → ReqState × Except AuthErr ApiRespModel :=
  fun _ s => (s, .error (.rateLimit 1000))

/-- An attempt body in which every attempt fails with a `NetworkError`
(e.g. the issuer exchange's `fetch` rejects every time); used to witness
the retry-exhaustion and backoff theorems. -/
def attNet : Nat → ReqState → ReqState × Except AuthErr ApiRespModel :=
  fun _ s => (s, .error (.network "fetch failed"))

/-!  Helper lemmas.  -/

/-- A retryable classification is never one of the loop's break-immediately
classifications. -/
theorem retryable_not_break (err : AuthErr) (h : retryableErr err = true) :
    nonRetryableBreak err = false := by
  cases err <;> simp_all [retryableErr, nonRetryableBreak]

/-- Behaviour of the retry loop when every attempt throws a retryable
error: it runs `fuel + 1` attempts, sleeps according to `delaySchedule`,
and throws the last attempt's error. -/
theorem attemptsLoop_all_fail (cfg : AuthConfig)
    (att : Nat → ReqState → ReqState × Except AuthErr ApiRespModel) (e : Nat → AuthErr)
    (hatt : ∀ i s, (att i s).2 = .error (e i) ∧ (att i s).1.attempts = s.attempts ∧
      (att i s).1.sleeps = s.sleeps)
    (hretry : ∀ i, retryableErr (e i) = true) (fuel : Nat) :
    ∀ attempt s,
      (attemptsLoop cfg att fuel attempt s).2 = .error (e (attempt + fuel)) ∧
      (attemptsLoop cfg att fuel attempt s).1.attempts = s.attempts + (fuel + 1) ∧
      (attemptsLoop cfg att fuel attempt s).1.sleeps =
        s.sleeps ++ delaySchedule cfg e fuel attempt := by
  induction fuel with
  | zero =>
    intro attempt s
    obtain ⟨h2, hA, hS⟩ := hatt attempt { s with attempts := s.attempts + 1 }
    rcases hp : att attempt { s with attempts := s.attempts + 1 } with ⟨s1, res⟩
    rw [hp] at h2 hA hS
    simp only at h2 hA hS
    subst h2
    rw [attemptsLoop]
    simp only [hp, retryable_not_break _ (hretry attempt), Bool.false_eq_true, if_false]
    simp [hA, hS, delaySchedule]
  | succ f ih =>
    intro attempt s
    obtain ⟨h2, hA, hS⟩ := hatt attempt { s with attempts := s.attempts + 1 }
    rcases hp : att attempt { s with attempts := s.attempts + 1 } with ⟨s1, res⟩
    rw [hp] at h2 hA hS
    simp only at h2 hA hS
    subst h2
    rw [attemptsLoop]
    simp only [hp, retryable_not_break _ (hretry attempt), Bool.false_eq_true, if_false]
    have hr := hretry attempt
    have harith : attempt + 1 + f = attempt + (f + 1) := by omega
    cases hE : e attempt with
    | rateLimit ra =>
      obtain ⟨ih1, ih2, ih3⟩ := ih (attempt + 1)
        { s1 with sleeps := s1.sleeps ++ [(if ra != 0 then ra else cfg.retryDelay) * 2 ^ attempt] }
      have hA' : ({ s1 with sleeps := s1.sleeps ++ [(if ra != 0 then ra else cfg.retryDelay) * 2 ^ attempt] } : ReqState).attempts = s1.attempts := rfl
      have hS' : ({ s1 with sleeps := s1.sleeps ++ [(if ra != 0 then ra else cfg.retryDelay) * 2 ^ attempt] } : ReqState).sleeps = s1.sleeps ++ [(if ra != 0 then ra else cfg.retryDelay) * 2 ^ attempt] := rfl
      rw [hA'] at ih2
      rw [hS'] at ih3
      refine ⟨?_, ?_, ?_⟩
      · simp only [ih1, harith]
      · simp only [ih2]; omega
      · simp only [ih3]
        rw [hS]
        simp [delaySchedule, delayForErr, hE, List.append_assoc]
    | tokenExpired =>
      obtain ⟨ih1, ih2, ih3⟩ := ih (attempt + 1)
        { s1 with cache := none, sleeps := s1.sleeps ++ [cfg.retryDelay * 2 ^ attempt] }
      have hA' : ({ s1 with cache := none, sleeps := s1.sleeps ++ [cfg.retryDelay * 2 ^ attempt] } : ReqState).attempts = s1.attempts := rfl
      have hS' : ({ s1 with cache := none, sleeps := s1.sleeps ++ [cfg.retryDelay * 2 ^ attempt] } : ReqState).sleeps = s1.sleeps ++ [cfg.retryDelay * 2 ^ attempt] := rfl
      rw [hA'] at ih2
      rw [hS'] at ih3
      refine ⟨?_, ?_, ?_⟩
      · simp only [ih1, harith]
      · simp only [ih2]; omega
      · simp only [ih3]
        rw [hS]
        simp [delaySchedule, delayForErr, hE, List.append_assoc]
    | network msg =>
      obtain ⟨ih1, ih2, ih3⟩ := ih (attempt + 1)
        { s1 with sleeps := s1.sleeps ++ [cfg.retryDelay * 2 ^ attempt] }
      have hA' : ({ s1 with sleeps := s1.sleeps ++ [cfg.retryDelay * 2 ^ attempt] } : ReqState).attempts = s1.attempts := rfl
      have hS' : ({ s1 with sleeps := s1.sleeps ++ [cfg.retryDelay * 2 ^ attempt] } : ReqState).sleeps = s1.sleeps ++ [cfg.retryDelay * 2 ^ attempt] := rfl
      rw [hA'] at ih2
      rw [hS'] at ih3
      refine ⟨?_, ?_, ?_⟩
      · simp only [ih1, harith]
      · simp only [ih2]; omega
      · simp only [ih3]
        rw [hS]
        simp [delaySchedule, delayForErr, hE, List.append_assoc]
    | authentication code st => rw [hE] at hr; simp [retryableErr] at hr
    | invalidCredentials => rw [hE] at hr; simp [retryableErr] at hr
    | configuration msg => rw [hE] at hr; simp [retryableErr] at hr
    | jsError msg => rw [hE] at hr; simp [retryableErr] at hr

/-- After one refresh has been started, further concurrent arrivals all
join it and change nothing. -/
theorem arriveN_inFlight (m : Nat) (cv : Bool) (k : Nat) :
    arriveN m { inFlight := true, cacheValid := cv, exchanges := k } =
      ({ inFlight := true, cacheValid := cv, exchanges := k },
        List.replicate m .awaitRefresh) := by
  induction m with
  | zero => rfl
  | succ n ih => simp [arriveN, getTokenArrival, ih, List.replicate]

/-!  Claim theorems.  -/

/-- C1 (status: code_bug): in the claimed scenario — client constructed
with `maxRetries 2`, `retryDelay 10`; issuer exchange succeeds first time
with token `T1` and `expires_in 3600`; business endpoint answers 429 with
`Retry-After: 1` on the first request and 200 with JSON `\x7bok:true\x7d`
on the second — the code does NOT retry: `handleResponse` converts its own
`RateLimitError` (an `instanceof AuthenticationError`) into a returned
unsuccessful `ApiResponse`, so `makeAuthenticatedRequest` resolves after
one issuer exchange and one business call, with no sleep, with
`success = false` and error `RATE_LIMIT_EXCEEDED` (hint 1000 ms), instead
of the claimed successful `\x7bok:true\x7d` after a second attempt. -/
theorem c1_rate_limit_swallowed_run :
    (makeAuthenticatedRequest cfgC1 envC1 0 [] initReqState).2 =
      .ok { success := false, data := none, error := some (.rateLimit 1000), status := 429 } ∧
    (makeAuthenticatedRequest cfgC1 envC1 0 [] initReqState).1.issuerCalls = 1 ∧
    (makeAuthenticatedRequest cfgC1 envC1 0 [] initReqState).1.businessCalls = 1 ∧
    (makeAuthenticatedRequest cfgC1 envC1 0 [] initReqState).1.sleeps = [] :=
  ⟨rfl, rfl, rfl, rfl⟩

/-- C2 (status: confirmed): for every `n ≥ 1` concurrent `getToken()`
calls arriving while no valid credential is cached and no refresh is in
flight, exactly one issuer exchange is started, every call awaits that
refresh, and once it resolves with token `t` all `n` calls resolve to the
same string `t`. -/
theorem getToken_single_flight (n : Nat) (hn : 1 ≤ n) :
    (arriveN n flightInit).1.exchanges = 1 ∧
    (arriveN n flightInit).2 = List.replicate n .awaitRefresh ∧
    ∀ t c, (arriveN n flightInit).2.map (resolveOutcome t c) = List.replicate n t := by
  match n, hn with
  | m + 1, _ =>
    have h1 : arriveN (m + 1) flightInit =
        ({ inFlight := true, cacheValid := false, exchanges := 1 },
          CallOutcome.awaitRefresh :: List.replicate m .awaitRefresh) := by
      simp [arriveN, flightInit, getTokenArrival, arriveN_inFlight]
    refine ⟨by rw [h1], by rw [h1]; simp [List.replicate], ?_⟩
    intro t c
    rw [h1]
    simp [resolveOutcome, List.replicate]

/-- Witness for C2 at `n = 3` and refresh token `T1`. -/
theorem getToken_single_flight_witness :
    (arriveN 3 flightInit).1.exchanges = 1 ∧
    (arriveN 3 flightInit).2.map (resolveOutcome "T1" "C0") = List.replicate 3 "T1" :=
  ⟨(getToken_single_flight 3 (by decide)).1,
    (getToken_single_flight 3 (by decide)).2.2 "T1" "C0"⟩

/-- C3 (status: confirmed): if every attempt of one
`makeAuthenticatedRequest` call throws a retryable classification
(`NetworkError`, `TokenExpiredError` or `RateLimitError`), the retry loop
performs exactly `maxRetries + 1` attempts and finally throws the failure
of the last attempt. -/
theorem makeAuthenticatedRequest_retry_exhaustion (cfg : AuthConfig)
    (att : Nat → ReqState → ReqState × Except AuthErr ApiRespModel) (e : Nat → AuthErr)
    (hatt : ∀ i s, (att i s).2 = .error (e i) ∧ (att i s).1.attempts = s.attempts ∧
      (att i s).1.sleeps = s.sleeps)
    (hretry : ∀ i, retryableErr (e i) = true) :
    (attemptsLoop cfg att cfg.maxRetries 0 initReqState).2 = .error (e cfg.maxRetries) ∧
    (attemptsLoop cfg att cfg.maxRetries 0 initReqState).1.attempts = cfg.maxRetries + 1 := by
  obtain ⟨h1, h2, _⟩ := attemptsLoop_all_fail cfg att e hatt hretry cfg.maxRetries 0 initReqState
  exact ⟨by simpa using h1, by simpa [initReqState] using h2⟩

/-- Witness for C3: with the default configuration (`maxRetries 3`) and
every attempt failing with a `NetworkError`, the loop makes 4 attempts and
throws that `NetworkError`. -/
theorem makeAuthenticatedRequest_retry_exhaustion_witness :
    (attemptsLoop cfgDefault attNet cfgDefault.maxRetries 0 initReqState).2 =
      .error (.network "fetch failed") ∧
    (attemptsLoop cfgDefault attNet cfgDefault.maxRetries 0 initReqState).1.attempts =
      cfgDefault.maxRetries + 1 :=
  makeAuthenticatedRequest_retry_exhaustion cfgDefault attNet
    (fun _ => .network "fetch failed") (fun _ _ => ⟨rfl, rfl, rfl⟩) (fun _ => rfl)

/-- C4 (status: code_bug): a 401 business response does clear the cached
credential, but no second attempt follows: `handleResponse` converts its
own `TokenExpiredError` into a returned unsuccessful `ApiResponse`, so the
call resolves after a single issuer exchange and a single business call
and `getToken(forceRefresh = true)` is never reached. -/
theorem c4_unauthorized_no_retry_run :
    (makeAuthenticatedRequest cfgDefault envC4 0 [] initReqState).1.cache = none ∧
    (makeAuthenticatedRequest cfgDefault envC4 0 [] initReqState).2 =
      .ok { success := false, data := none, error := some .tokenExpired, status := 401 } ∧
    (makeAuthenticatedRequest cfgDefault envC4 0 [] initReqState).1.businessCalls = 1 ∧
    (makeAuthenticatedRequest cfgDefault envC4 0 [] initReqState).1.issuerCalls = 1 :=
  ⟨rfl, rfl, rfl, rfl⟩

/-- C5 counterexample: for a token with declared lifetime 30 s cached at
time 0 under the default cache-lifetime config, `getTokenInfo().isValid`
is `false` immediately after the successful exchange (the 60 s safety
buffer exceeds the whole cache lifetime), contradicting the claim's
unconditional "immediately after ... isValid is true". -/
theorem cache_validity_immediate_counterexample :
    (getTokenInfo 0 (some (cacheToken cfgDefault 0 (createJWTToken 0 "T" "Bearer" 30)))).isValid
      = false := rfl

/-- C5 (status: corrected, amended): after a successful exchange with
declared lifetime `L` seconds cached at time `t` under cache-lifetime
config `C`, `getTokenInfo().isValid` at time `u` is true exactly when
`u < t + min(C, L*1000) - 60000`; in particular it is true immediately
after the exchange only when `min(C, L*1000) > 60000`. -/
theorem cache_validity_iff (cfg : AuthConfig) (L : Nat) (a ty : String) (t u : Int) :
    ((getTokenInfo u (some (cacheToken cfg t (createJWTToken t a ty L)))).isValid = true) ↔
      u < t + min cfg.tokenCacheTtl ((L : Int) * 1000) - 60000 := by
  simp [getTokenInfo, isTokenValid, cacheToken, createJWTToken]

/-- C6 counterexample: with configured base delay 5000 ms and a first
attempt failing with a `RateLimitError` carrying a `Retry-After` hint of
1 s (1000 ms), the loop sleeps 1000 ms — not
`max(hint, baseDelay) * 2^0 = 5000 ms` as the claim states. -/
theorem rate_limit_delay_not_max :
    (attemptsLoop cfgC6 attC6 cfgC6.maxRetries 0 initReqState).1.sleeps = [1000] ∧
    ([1000] : List Nat) ≠ [max 1000 cfgC6.retryDelay * 2 ^ 0] := by
  exact ⟨rfl, by decide⟩

/-- C6 (status: corrected, amended): when every attempt throws a retryable
failure, the inter-attempt delay before attempt `N+1` (1-based `N`,
0-based index `i = N-1`) is `hintMs * 2^i` when the `N`-th failure is a
`RateLimitError` with non-zero hint `hintMs` (the parsed `Retry-After`
seconds times 1000, 60000 if the header is absent), and
`retryDelay * 2^i` when the hint is zero or the failure is a
`TokenExpiredError` or `NetworkError` — i.e. the sleeps are exactly
`delaySchedule`. -/
theorem makeAuthenticatedRequest_backoff_schedule (cfg : AuthConfig)
    (att : Nat → ReqState → ReqState × Except AuthErr ApiRespModel) (e : Nat → AuthErr)
    (hatt : ∀ i s, (att i s).2 = .error (e i) ∧ (att i s).1.attempts = s.attempts ∧
      (att i s).1.sleeps = s.sleeps)
    (hretry : ∀ i, retryableErr (e i) = true) :
    (attemptsLoop cfg att cfg.maxRetries 0 initReqState).1.sleeps =
      delaySchedule cfg e cfg.maxRetries 0 := by
  obtain ⟨_, _, h3⟩ := attemptsLoop_all_fail cfg att e hatt hretry cfg.maxRetries 0 initReqState
  simpa [initReqState] using h3

/-- Witness for C6's amended statement: rate-limit failures with hint
1000 ms under `retryDelay 5000`, `maxRetries 1` sleep exactly
`[1000 * 2^0] = [1000]`. -/
theorem makeAuthenticatedRequest_backoff_schedule_witness :
    (attemptsLoop cfgC6 attC6 cfgC6.maxRetries 0 initReqState).1.sleeps = [1000] := by
  have h := makeAuthenticatedRequest_backoff_schedule cfgC6 attC6
    (fun _ => .rateLimit 1000) (fun _ _ => ⟨rfl, rfl, rfl⟩) (fun _ => rfl)
  simpa [delaySchedule, delayForErr, cfgC6, cfgDefault] using h

/-- C7 counterexample: with a credential issued with `token_type "MAC"`,
the request is sent with `Authorization: Bearer T1` — the literal string
`Bearer` — not `MAC T1` as the claim states. -/
theorem authorization_ignores_token_type :
    (makeAuthenticatedRequest cfgDefault envC7 0 [] initReqState).1.sentAuth = ["Bearer T1"] ∧
    ((makeAuthenticatedRequest cfgDefault envC7 0 [] initReqState).1.cache.map
        (fun ct => ct.token.token_type)) = some "MAC" ∧
    ("Bearer T1" : String) ≠ "MAC" ++ " " ++ "T1" :=
  ⟨rfl, rfl, by decide⟩

/-- C7 (status: corrected, amended): the outgoing headers are
`Content-Type: application/json` and `Authorization: "Bearer " + token`
(the literal scheme `Bearer` regardless of the credential's `token_type`),
with caller-supplied headers taking precedence over both injected entries
on conflicting keys. -/
theorem request_headers_spec (token : String) (caller : List (String × String))
    (hA : lookupLastH caller "Authorization" = none)
    (hC : lookupLastH caller "Content-Type" = none) :
    requestHeaderValue token caller "Authorization" = some ("Bearer " ++ token) ∧
    requestHeaderValue token caller "Content-Type" = some "application/json" ∧
    ∀ k v, lookupLastH caller k = some v → requestHeaderValue token caller k = some v := by
  refine ⟨?_, ?_, ?_⟩
  · simp [requestHeaderValue, hA]
  · simp [requestHeaderValue, hC]
  · intro k v h
    simp [requestHeaderValue, h]

/-- Witness for C7's amended statement at a concrete caller header list. -/
theorem request_headers_spec_witness :
    requestHeaderValue "T1" [("X-Trace", "abc")] "Authorization" = some ("Bearer " ++ "T1") ∧
    requestHeaderValue "T1" [("X-Trace", "abc")] "Content-Type" = some "application/json" ∧
    requestHeaderValue "T1" [("X-Trace", "abc")] "X-Trace" = some "abc" := by
  have h := request_headers_spec "T1" [("X-Trace", "abc")] rfl rfl
  exact ⟨h.1, h.2.1, h.2.2 "X-Trace" "abc" rfl⟩

/-- C8 counterexample: `clientId` equal to the empty string (which is
present and is a string, hence neither "missing" nor "not a string") still
makes the constructor throw `ConfigurationError`, because the source's
check `!config.clientId` is a JavaScript falsiness test. -/
theorem coreAuthNew_empty_clientId_counterexample :
    coreAuthNew { clientId := .strVal "", secretKey := .strVal "s1", tokenCacheTtl := none,
                  maxRetries := none, retryDelay := none } =
      .error (.configuration "clientId is required and must be a string") ∧
    ¬ (missingOrNotString (.strVal "") ∨ missingOrNotString (.strVal "s1")) :=
  ⟨rfl, by decide⟩

/-- C8 (status: corrected, amended): the constructor throws
`ConfigurationError` (synchronously, with no network interaction — the
model of construction involves no script) exactly when `clientId` or
`secretKey` is missing, not a string, or the empty string. -/
theorem coreAuthNew_validation (c : RawConfig) :
    (∃ msg, coreAuthNew c = .error (.configuration msg)) ↔
      (c.clientId = .undef ∨ c.clientId = .nonString ∨ c.clientId = .strVal "" ∨
        c.secretKey = .undef ∨ c.secretKey = .nonString ∨ c.secretKey = .strVal "") := by
  obtain ⟨cid, sk, ttl, mr, rd⟩ := c
  cases cid <;> cases sk <;> simp only [coreAuthNew] <;> (try split_ifs) <;> simp_all

/-- C9 counterexample: a token created at `Date.now() = 0` with
`expires_in 60` has `expires_at = 60000`, but caching it one millisecond
later (`Date.now() = 1`) under the default 55-minute cache lifetime stores
`expiresAt = 1 + min(3300000, 60000) = 60001 > 60000`, violating
cache-expiry ≤ credential-expiry. -/
theorem cache_expiry_invariant_counterexample :
    (createJWTToken 0 "T" "Bearer" 60).expires_at <
      (cacheToken cfgDefault 1 (createJWTToken 0 "T" "Bearer" 60)).expiresAt := by
  decide

/-- C9 (status: corrected, amended): the stored entry's cache expiry can
exceed the credential's own `expires_at` only by the clock drift between
the `Date.now()` reading of `createJWTToken` (`t1`) and that of
`cacheToken` (`t2`): `expiresAt ≤ expires_at + (t2 - t1)`; when the two
readings coincide the claimed invariant cache-expiry ≤ credential-expiry
holds. -/
theorem cache_expiry_drift_bound (cfg : AuthConfig) (a ty : String) (L : Nat) (t1 t2 : Int) :
    (cacheToken cfg t2 (createJWTToken t1 a ty L)).expiresAt ≤
      (createJWTToken t1 a ty L).expires_at + (t2 - t1) := by
  simp only [cacheToken, createJWTToken]
  have h := min_le_right cfg.tokenCacheTtl ((L : Int) * 1000)
  linarith

/-- C10 (status: confirmed): when the caller-supplied headers contain an
`Authorization` key with value `v`, the outgoing request carries `v` —
the caller's headers are spread after the injected `Authorization`
header — and the cached credential's `Bearer` header is not attached
(whenever `v` differs from it). -/
theorem caller_authorization_precedence (token v : String) (caller : List (String × String))
    (h : lookupLastH caller "Authorization" = some v) :
    requestHeaderValue token caller "Authorization" = some v ∧
      (v ≠ "Bearer " ++ token →
        requestHeaderValue token caller "Authorization" ≠ some ("Bearer " ++ token)) := by
  have h1 : requestHeaderValue token caller "Authorization" = some v := by
    simp [requestHeaderValue, h]
  refine ⟨h1, fun hv hc => hv ?_⟩
  rw [h1] at hc
  exact Option.some.inj hc

/-- Witness for C10 at a concrete caller-supplied `Authorization`. -/
theorem caller_authorization_precedence_witness :
    requestHeaderValue "T1" [("Authorization", "Basic Zm9v")] "Authorization" =
      some "Basic Zm9v" ∧
    requestHeaderValue "T1" [("Authorization", "Basic Zm9v")] "Authorization" ≠
      some ("Bearer " ++ "T1") := by
  have h := caller_authorization_precedence "T1" "Basic Zm9v"
    [("Authorization", "Basic Zm9v")] rfl
  exact ⟨h.1, h.2 (by decide)⟩
